import Mathlib

/-!
Verification of the `pc-frame` repository (src/main.py): a parametric
generator for a rectangular PC frame made of 2020 aluminium extrusions.

The Python source is shallowly embedded as follows.

* Dimensions and coordinates (Python floats) are modelled as `Rat`.
* A build123d `Part` is modelled as a `PartObj`: the requested extrusion
  `length` together with the two mutable attributes the source assigns,
  `label` and `location`.  `bd.Location((x,y,z), (rx,ry,rz))` is modelled
  as a pair of 3-vectors (`position`, Euler-angle `orientation`), exactly
  the data the source reads back via `.position` / `.orientation`.
* Python's object heap is modelled explicitly by a `Store` (a list of
  `PartObj`, the index being the object identity).  `copy.copy` allocates
  a fresh object with the same fields; attribute assignment
  (`obj.label = ...`, `obj.location = ...`) updates the store at one
  index.  This makes the aliasing / template-sharing claims meaningful.
* `extrusion_2020` depends on an external STEP file; whether a valid
  solid can be produced for a given length is abstracted as an oracle
  `ok : Rat → Bool`.  A failure raises `ValueError "Part creation failed"`
  in the source, modelled by `FrameError.shapeConstruction`.
* The `assert` statements of `FrameConfig.__post_init__` are modelled by
  `FrameConfig.post_init : Except VErr Unit` returning the first failing
  check; each `VErr` constructor carries exactly the data interpolated
  into the corresponding Python assertion message (1-based bridge index,
  offending value, computed bound).
-/

/-- Coordinate triple (millimetres resp. Euler angles in degrees). -/
structure Vec3 where
  x : Rat
  y : Rat
  z : Rat
deriving DecidableEq

/-- Model of `bd.Location(position, orientation)`: the data the source
stores and reads back (`.position`, `.orientation`). -/
structure Location where
  position : Vec3
  orientation : Vec3
deriving DecidableEq

/-- Model of a build123d `Part` produced by `extrusion_2020`: the requested
extrusion length plus the two attributes the source mutates. -/
structure PartObj where
  length : Rat
  label : String
  location : Location
deriving DecidableEq

/-- The identity location a freshly extruded part carries. -/
def locZero : Location := ⟨⟨0, 0, 0⟩, ⟨0, 0, 0⟩⟩

/-- The Python object heap: object id `i` is the `i`-th entry. -/
abbrev Store := List PartObj

/-- Read object `i` (total, with a dummy default; all reads performed by
the embedded code are in range). -/
def storeGet : Store → Nat → PartObj
  | [], _ => ⟨0, "", locZero⟩
  | p :: _, 0 => p
  | _ :: s, n + 1 => storeGet s n

/-- Update object `i` in place. -/
def storeUpdate : Store → Nat → (PartObj → PartObj) → Store
  | [], _, _ => []
  | p :: s, 0, f => f p :: s
  | p :: s, n + 1, f => p :: storeUpdate s n f

/-- Allocate a fresh object, returning its id. -/
def alloc (s : Store) (p : PartObj) : Nat × Store := (s.length, s ++ [p])

/-- Model of `copy.copy(part)`: a fresh object with the same fields,
independent of the original. -/
def copyObj (s : Store) (i : Nat) : Nat × Store := alloc s (storeGet s i)

/-- Model of `part.label = lb`. -/
def setLabel (s : Store) (i : Nat) (lb : String) : Store :=
  storeUpdate s i (fun p => ⟨p.length, lb, p.location⟩)

/-- Model of `part.location = loc`. -/
def setLocation (s : Store) (i : Nat) (loc : Location) : Store :=
  storeUpdate s i (fun p => ⟨p.length, p.label, loc⟩)

/-- Kernel-reducible model of Python's `str.startswith` (build123d labels
are plain ASCII, so char-list prefix comparison is exact). -/
def string_startsWith (s pat : String) : Bool :=
  pat.toList.isPrefixOf s.toList

/-- Fuel-driven replace-all on char lists; with fuel `≥ s.length` this is
Python's left-to-right non-overlapping `str.replace` for a non-empty
pattern. -/
def replaceFuel (pat rep : List Char) : Nat → List Char → List Char
  | _, [] => []
  | 0, s => s
  | fuel + 1, c :: rest =>
    if pat.isPrefixOf (c :: rest) then
      rep ++ replaceFuel pat rep fuel (List.drop (pat.length - 1) rest)
    else
      c :: replaceFuel pat rep fuel rest

/-- Model of Python's `s.replace(pat, rep)` for non-empty `pat` (the source
only calls it with pattern `"front_"`). -/
def string_replace (s pat rep : String) : String :=
  ⟨replaceFuel pat.toList rep.toList s.toList.length s.toList⟩

-- =============================================================================
-- CONSTANTS (src/main.py lines 140-141)
-- =============================================================================

def RIGHT_ANGLE : Rat := 90

def EXTRUSION_2020_SIZE : Rat := 20

-- =============================================================================
-- FrameConfig (src/main.py lines 12-102)
-- =============================================================================

/-- Configuration for the PC frame dimensions and bridge placement
(the `FrameConfig` dataclass fields, defaults included). -/
structure FrameConfig where
  width : Rat := 400
  height : Rat := 200
  depth : Rat := 300
  bottom_bridge_positions : List Rat := [50, 200]
  top_bridge_positions : List Rat := []
deriving DecidableEq

/-- Structured content of the validation `assert` messages of
`FrameConfig.__post_init__`: each constructor carries exactly the data the
corresponding f-string interpolates (the 1-based bridge index, the
offending value, and the computed bound). -/
inductive VErr where
  | bottomNeg (index : Nat) (pos : Rat)
  | bottomExceeds (index : Nat) (pos : Rat) (usable_width : Rat)
  | topNeg (index : Nat) (pos : Rat)
  | topExceeds (index : Nat) (pos : Rat) (usable_width : Rat)
  | widthMin (value : Rat) (min_dimension : Rat)
  | heightMin (value : Rat) (min_dimension : Rat)
  | depthMin (value : Rat) (min_dimension : Rat)
deriving DecidableEq

/-- One bridge-position validation loop of `__post_init__` (lines 34-42 resp.
45-51): for each position, in order, assert non-negativity and then the
upper bound; `i` is the 0-based `enumerate` counter, the error carries
`i + 1`. -/
def checkPositions (mkNeg : Nat → Rat → VErr) (mkExceeds : Nat → Rat → Rat → VErr)
    (usable_width : Rat) : Nat → List Rat → Except VErr Unit
  | _, [] => Except.ok ()
  | i, pos :: rest =>
    if pos < 0 then Except.error (mkNeg (i + 1) pos)
    else if usable_width < pos then Except.error (mkExceeds (i + 1) pos usable_width)
    else checkPositions mkNeg mkExceeds usable_width (i + 1) rest

/-- Model of `FrameConfig.__post_init__` (lines 28-63): validate bottom
bridges, then top bridges, then the minimum dimensions, raising on the
first failing assertion. -/
def FrameConfig.post_init (c : FrameConfig) : Except VErr Unit :=
  let usable_width := c.width - 2 * EXTRUSION_2020_SIZE
  match checkPositions VErr.bottomNeg VErr.bottomExceeds usable_width 0
      c.bottom_bridge_positions with
  | Except.error e => Except.error e
  | Except.ok () =>
    match checkPositions VErr.topNeg VErr.topExceeds usable_width 0
        c.top_bridge_positions with
    | Except.error e => Except.error e
    | Except.ok () =>
      let min_dimension := 2 * EXTRUSION_2020_SIZE
      if c.width < min_dimension then Except.error (VErr.widthMin c.width min_dimension)
      else if c.height < min_dimension then Except.error (VErr.heightMin c.height min_dimension)
      else if c.depth < min_dimension then Except.error (VErr.depthMin c.depth min_dimension)
      else Except.ok ()

/-- Per-type breakdown entry of `calculate_extrusion_lengths`. -/
structure ExtrusionBreakdown where
  length : Rat
  count : Nat
  total : Rat
deriving DecidableEq

/-- Result dictionary of `calculate_extrusion_lengths` (lines 65-102),
flattened: the source nests `bottom_count` / `top_count` inside the
`bridge` entry. -/
structure ExtrusionLengths where
  vertical : ExtrusionBreakdown
  horizontal : ExtrusionBreakdown
  bridge : ExtrusionBreakdown
  bottom_count : Nat
  top_count : Nat
  total_length_mm : Rat
  total_length_m : Rat
deriving DecidableEq

/-- Model of `FrameConfig.calculate_extrusion_lengths` (lines 65-102),
computed field by field exactly as the source does. -/
def FrameConfig.calculate_extrusion_lengths (c : FrameConfig) : ExtrusionLengths :=
  let vertical_length := c.height - EXTRUSION_2020_SIZE
  let horizontal_length := c.width
  let bridge_length := c.depth - EXTRUSION_2020_SIZE
  let num_verticals : Nat := 4
  let num_horizontals : Nat := 4
  let num_bottom_bridges := c.bottom_bridge_positions.length
  let num_top_bridges := c.top_bridge_positions.length
  let num_bridges := num_bottom_bridges + num_top_bridges
  let total_vertical := (num_verticals : Rat) * vertical_length
  let total_horizontal := (num_horizontals : Rat) * horizontal_length
  let total_bridges := (num_bridges : Rat) * bridge_length
  let total_length := total_vertical + total_horizontal + total_bridges
  { vertical := ⟨vertical_length, num_verticals, total_vertical⟩
    horizontal := ⟨horizontal_length, num_horizontals, total_horizontal⟩
    bridge := ⟨bridge_length, num_bridges, total_bridges⟩
    bottom_count := num_bottom_bridges
    top_count := num_top_bridges
    total_length_mm := total_length
    total_length_m := total_length / 1000 }

-- =============================================================================
-- Geometry collaborator and create_frame (src/main.py lines 149-257)
-- =============================================================================

/-- Errors reaching the caller: the validation `AssertionError`s of
`__post_init__` and the `ValueError` of `extrusion_2020` are distinct
kinds. -/
inductive FrameError where
  | validation (e : VErr)
  | shapeConstruction (msg : String)
deriving DecidableEq

/-- Model of `extrusion_2020(length)` (lines 149-165).  Whether the external
geometry kernel can produce a valid solid for the requested length is
abstracted by the oracle `ok`; on success a fresh part (empty label,
identity location) is allocated, otherwise `ValueError("Part creation
failed")` is raised. -/
def extrusion_2020 (ok : Rat → Bool) (length : Rat) (s : Store) :
    Except FrameError (Nat × Store) :=
  if ok length then Except.ok (alloc s ⟨length, "", locZero⟩)
  else Except.error (FrameError.shapeConstruction "Part creation failed")

/-- A sub-assembly (`bd.Compound` whose children are parts): label plus the
ids of its member objects. -/
structure Compound where
  label : String
  children : List Nat
deriving DecidableEq

/-- A child of the root compound: either a sub-assembly or a single part. -/
inductive Child where
  | sub (c : Compound)
  | member (id : Nat)
deriving DecidableEq

/-- The root compound (`bd.Compound(label="pc_frame", children=...)`). -/
structure Assembly where
  label : String
  children : List Child
deriving DecidableEq

/-- One bridge loop of `create_frame` (lines 226-239 resp. 241-253): for each
`x_pos` (with 0-based `enumerate` counter `i`), `copy.copy` the bridge
template, set its label to `tag + str(i+1)` and its location to
`((x_pos, depth, z), (90, 0, 0))`, collecting the placed ids in order.
The bottom loop uses `tag = "bottom_bridge_"`, `z = -EXTRUSION_2020_SIZE`;
the top loop uses `tag = "top_bridge_"`, `z = height - EXTRUSION_2020_SIZE`. -/
def placeBridges (tag : String) (y z : Rat) (tmpl : Nat) :
    Nat → List Rat → Store → List Nat × Store
  | _, [], s => ([], s)
  | i, x_pos :: rest, s =>
    let alloc1 := copyObj s tmpl
    let s1 := setLabel alloc1.2 alloc1.1 (tag ++ toString (i + 1))
    let s2 := setLocation s1 alloc1.1 ⟨⟨x_pos, y, z⟩, ⟨RIGHT_ANGLE, 0, 0⟩⟩
    let rest1 := placeBridges tag y z tmpl (i + 1) rest s2
    (alloc1.1 :: rest1.1, rest1.2)

/-- The member-copying half of `copy.deepcopy(frame1)` (line 196): every
child part is duplicated, in order, into a fresh independent object. -/
def copyChildren : List Nat → Store → List Nat × Store
  | [], s => ([], s)
  | i :: rest, s =>
    let alloc1 := copyObj s i
    let rest1 := copyChildren rest alloc1.2
    (alloc1.1 :: rest1.1, rest1.2)

/-- The back-frame fix-up loop of `create_frame` (lines 200-224): for each
child of the deep copy, rewrite a `front_`-prefixed label to `back_`, then
rebuild its location with the Y coordinate increased by `depth` and the
orientation kept.  (The source's `if child.location:` guard is always
taken — a build123d `Location` is always truthy — and its tuple/Vector
duck-typing branches both produce the stored triples, so both collapse
here.) -/
def adjustBack (depth : Rat) : List Nat → Store → Store
  | [], s => s
  | c :: rest, s =>
    let obj := storeGet s c
    let newLabel :=
      if string_startsWith obj.label "front_" then
        string_replace obj.label "front_" "back_"
      else obj.label
    let s1 := setLabel s c newLabel
    let obj1 := storeGet s1 c
    let pos := obj1.location.position
    let rot := obj1.location.orientation
    let s2 := setLocation s1 c ⟨⟨pos.x, pos.y + depth, pos.z⟩, rot⟩
    adjustBack depth rest s2

/-- The front-face block of `create_frame` (lines 175-193): four
`copy.copy` instantiations of the two frame templates, the four label
assignments, the four location assignments, and the `front_frame`
compound. -/
def make_front (config : FrameConfig)
    (vertical_extrusion horizontal_extrusion : Nat) (s3 : Store) :
    Compound × Store :=
  let a1 := copyObj s3 vertical_extrusion
  let left1 := a1.1
  let a2 := copyObj a1.2 vertical_extrusion
  let right1 := a2.1
  let a3 := copyObj a2.2 horizontal_extrusion
  let top1 := a3.1
  let a4 := copyObj a3.2 horizontal_extrusion
  let bottom1 := a4.1
  let s4 := setLabel a4.2 left1 "front_left"
  let s5 := setLabel s4 right1 "front_right"
  let s6 := setLabel s5 top1 "front_top"
  let s7 := setLabel s6 bottom1 "front_bottom"
  let s8 := setLocation s7 left1 ⟨⟨0, 0, 0⟩, ⟨0, 0, 0⟩⟩
  let s9 := setLocation s8 right1
    ⟨⟨config.width - EXTRUSION_2020_SIZE, 0, 0⟩, ⟨0, 0, 0⟩⟩
  let s10 := setLocation s9 top1 ⟨⟨0, 0, config.height⟩, ⟨0, RIGHT_ANGLE, 0⟩⟩
  let s11 := setLocation s10 bottom1 ⟨⟨0, 0, 0⟩, ⟨0, RIGHT_ANGLE, 0⟩⟩
  (⟨"front_frame", [top1, bottom1, left1, right1]⟩, s11)

/-- The back-face block of `create_frame` (lines 195-224):
`copy.deepcopy(frame1)` followed by `frame2.label = "back_frame"` becomes
`copyChildren` plus construction of the new compound value with the
overwritten label, and the subsequent child fix-up loop is `adjustBack`. -/
def make_back (config : FrameConfig) (frame1 : Compound) (s11 : Store) :
    Compound × Store :=
  let bc := copyChildren frame1.children s11
  let frame2 : Compound := ⟨"back_frame", bc.1⟩
  let s12 := adjustBack config.depth bc.1 bc.2
  (frame2, s12)

/-- Model of `create_frame(config)` (lines 168-257), threading the object
store: acquire the three templates, build the front face (`make_front`),
duplicate it into the back face (`make_back`), place the two bridge
groups (`placeBridges`), and compose the root compound. -/
def create_frame (ok : Rat → Bool) (config : FrameConfig) (s0 : Store) :
    Except FrameError (Assembly × Store) :=
  match extrusion_2020 ok (config.height - EXTRUSION_2020_SIZE) s0 with
  | Except.error e => Except.error e
  | Except.ok (vertical_extrusion, s1) =>
  match extrusion_2020 ok config.width s1 with
  | Except.error e => Except.error e
  | Except.ok (horizontal_extrusion, s2) =>
  match extrusion_2020 ok (config.depth - EXTRUSION_2020_SIZE) s2 with
  | Except.error e => Except.error e
  | Except.ok (bridge_extrusion, s3) =>
    let fr := make_front config vertical_extrusion horizontal_extrusion s3
    let ba := make_back config fr.1 fr.2
    let bb := placeBridges "bottom_bridge_" config.depth (-EXTRUSION_2020_SIZE)
      bridge_extrusion 0 config.bottom_bridge_positions ba.2
    let tb := placeBridges "top_bridge_" config.depth
      (config.height - EXTRUSION_2020_SIZE) bridge_extrusion 0
      config.top_bridge_positions bb.2
    let all_children :=
      [Child.sub fr.1, Child.sub ba.1]
        ++ bb.1.map Child.member ++ tb.1.map Child.member
    Except.ok (⟨"pc_frame", all_children⟩, tb.2)

deriving instance DecidableEq for Except

-- =============================================================================
-- Closed forms of the computation (derived, then proved against create_frame)
-- =============================================================================

/-- The geometry oracle of a healthy collaborator: every requested length
yields a valid solid. -/
def provider_always_ok : Rat → Bool := fun _ => true

/-- The parts one bridge loop appends to the store, in order: for the
`j`-th position `x_pos` (0-based `j = i` at entry `0`), a part of the
template's length labelled `tag ++ toString (j+1)` at
`((x_pos, y, z), (90, 0, 0))`. -/
def bridgeObjs (tag : String) (y z len : Rat) : Nat → List Rat → List PartObj
  | _, [] => []
  | i, x_pos :: rest =>
    ⟨len, tag ++ toString (i + 1), ⟨⟨x_pos, y, z⟩, ⟨RIGHT_ANGLE, 0, 0⟩⟩⟩
      :: bridgeObjs tag y z len (i + 1) rest

/-- The eleven fixed objects `create_frame` allocates before the bridges,
in allocation order: the three templates (ids +0..+2), the four front
members (+3..+6), the four back members (+7..+10). -/
def fixed_objs (c : FrameConfig) : Store :=
  [ ⟨c.height - EXTRUSION_2020_SIZE, "", locZero⟩,
    ⟨c.width, "", locZero⟩,
    ⟨c.depth - EXTRUSION_2020_SIZE, "", locZero⟩,
    ⟨c.height - EXTRUSION_2020_SIZE, "front_left", ⟨⟨0, 0, 0⟩, ⟨0, 0, 0⟩⟩⟩,
    ⟨c.height - EXTRUSION_2020_SIZE, "front_right",
      ⟨⟨c.width - EXTRUSION_2020_SIZE, 0, 0⟩, ⟨0, 0, 0⟩⟩⟩,
    ⟨c.width, "front_top", ⟨⟨0, 0, c.height⟩, ⟨0, RIGHT_ANGLE, 0⟩⟩⟩,
    ⟨c.width, "front_bottom", ⟨⟨0, 0, 0⟩, ⟨0, RIGHT_ANGLE, 0⟩⟩⟩,
    ⟨c.width, "back_top", ⟨⟨0, c.depth, c.height⟩, ⟨0, RIGHT_ANGLE, 0⟩⟩⟩,
    ⟨c.width, "back_bottom", ⟨⟨0, c.depth, 0⟩, ⟨0, RIGHT_ANGLE, 0⟩⟩⟩,
    ⟨c.height - EXTRUSION_2020_SIZE, "back_left", ⟨⟨0, c.depth, 0⟩, ⟨0, 0, 0⟩⟩⟩,
    ⟨c.height - EXTRUSION_2020_SIZE, "back_right",
      ⟨⟨c.width - EXTRUSION_2020_SIZE, c.depth, 0⟩, ⟨0, 0, 0⟩⟩⟩ ]

/-- Every object `create_frame` allocates, in allocation order: the eleven
fixed objects, then the bottom bridges, then the top bridges. -/
def built_objs (c : FrameConfig) : Store :=
  fixed_objs c
  ++ bridgeObjs "bottom_bridge_" c.depth (-EXTRUSION_2020_SIZE)
      (c.depth - EXTRUSION_2020_SIZE) 0 c.bottom_bridge_positions
  ++ bridgeObjs "top_bridge_" c.depth (c.height - EXTRUSION_2020_SIZE)
      (c.depth - EXTRUSION_2020_SIZE) 0 c.top_bridge_positions

/-- The assembly tree `create_frame` returns when started on a store of
length `n`: ids are offset by `n`. -/
def built_assembly (n : Nat) (c : FrameConfig) : Assembly :=
  ⟨"pc_frame",
    [Child.sub ⟨"front_frame", [n + 5, n + 6, n + 3, n + 4]⟩,
     Child.sub ⟨"back_frame", [n + 7, n + 8, n + 9, n + 10]⟩]
      ++ (List.range' (n + 11) c.bottom_bridge_positions.length).map Child.member
      ++ (List.range' (n + 11 + c.bottom_bridge_positions.length)
            c.top_bridge_positions.length).map Child.member⟩

/-- Flatten an assembly into its placed members, in traversal order,
resolving ids through the store. -/
def renderChildren (s : Store) : List Child → List PartObj
  | [] => []
  | Child.sub c :: rest => c.children.map (storeGet s) ++ renderChildren s rest
  | Child.member i :: rest => storeGet s i :: renderChildren s rest

/-- All placed members of an assembly, in traversal order. -/
def Assembly.render (a : Assembly) (s : Store) : List PartObj :=
  renderChildren s a.children

/-- The placed members of the frame for a config, in traversal order
(front frame: top, bottom, left, right; then the back frame likewise;
then the bridges). -/
def member_list (c : FrameConfig) : List PartObj :=
  [ ⟨c.width, "front_top", ⟨⟨0, 0, c.height⟩, ⟨0, RIGHT_ANGLE, 0⟩⟩⟩,
    ⟨c.width, "front_bottom", ⟨⟨0, 0, 0⟩, ⟨0, RIGHT_ANGLE, 0⟩⟩⟩,
    ⟨c.height - EXTRUSION_2020_SIZE, "front_left", ⟨⟨0, 0, 0⟩, ⟨0, 0, 0⟩⟩⟩,
    ⟨c.height - EXTRUSION_2020_SIZE, "front_right",
      ⟨⟨c.width - EXTRUSION_2020_SIZE, 0, 0⟩, ⟨0, 0, 0⟩⟩⟩,
    ⟨c.width, "back_top", ⟨⟨0, c.depth, c.height⟩, ⟨0, RIGHT_ANGLE, 0⟩⟩⟩,
    ⟨c.width, "back_bottom", ⟨⟨0, c.depth, 0⟩, ⟨0, RIGHT_ANGLE, 0⟩⟩⟩,
    ⟨c.height - EXTRUSION_2020_SIZE, "back_left", ⟨⟨0, c.depth, 0⟩, ⟨0, 0, 0⟩⟩⟩,
    ⟨c.height - EXTRUSION_2020_SIZE, "back_right",
      ⟨⟨c.width - EXTRUSION_2020_SIZE, c.depth, 0⟩, ⟨0, 0, 0⟩⟩⟩ ]
  ++ bridgeObjs "bottom_bridge_" c.depth (-EXTRUSION_2020_SIZE)
      (c.depth - EXTRUSION_2020_SIZE) 0 c.bottom_bridge_positions
  ++ bridgeObjs "top_bridge_" c.depth (c.height - EXTRUSION_2020_SIZE)
      (c.depth - EXTRUSION_2020_SIZE) 0 c.top_bridge_positions

/-- Run `create_frame` with a healthy geometry collaborator from a given
store and flatten the result to its placed members (empty on error;
with `provider_always_ok` no error occurs). -/
def run_members (c : FrameConfig) (s0 : Store) : List PartObj :=
  match create_frame provider_always_ok c s0 with
  | Except.ok (a, s) => a.render s
  | Except.error _ => []

/-- The assembly `create_frame` returns for a config, starting from the
empty heap (dummy on error; with `provider_always_ok` no error occurs). -/
def frame_assembly (c : FrameConfig) : Assembly :=
  match create_frame provider_always_ok c [] with
  | Except.ok (a, _) => a
  | Except.error _ => ⟨"", []⟩

/-- The final heap of `create_frame` for a config, starting from the empty
heap (dummy on error; with `provider_always_ok` no error occurs). -/
def frame_store (c : FrameConfig) : Store :=
  match create_frame provider_always_ok c [] with
  | Except.ok (_, s) => s
  | Except.error _ => []

/-- The placed members of the frame built from the empty heap. -/
def assembled_members (c : FrameConfig) : List PartObj :=
  (frame_assembly c).render (frame_store c)

/-- Concrete evaluation check of the closed forms against `create_frame`. -/
theorem closed_form_sanity_empty_store :
    create_frame provider_always_ok ⟨400, 200, 300, [50, 200], [70]⟩ [] =
      Except.ok (built_assembly 0 ⟨400, 200, 300, [50, 200], [70]⟩,
        built_objs ⟨400, 200, 300, [50, 200], [70]⟩) := by
  with_unfolding_all decide

/-- Concrete evaluation check of the rendered member list. -/
theorem member_list_sanity :
    assembled_members ⟨400, 200, 300, [50, 200], [70]⟩ =
      member_list ⟨400, 200, 300, [50, 200], [70]⟩ := by
  with_unfolding_all decide

/-- Concrete evaluation check of the closed forms on a non-empty initial
store. -/
theorem closed_form_sanity_nonempty_store :
    create_frame provider_always_ok ⟨400, 200, 300, [50], []⟩
        (built_objs ⟨100, 100, 100, [], []⟩) =
      Except.ok
        (built_assembly (built_objs ⟨100, 100, 100, [], []⟩).length
          ⟨400, 200, 300, [50], []⟩,
         built_objs ⟨100, 100, 100, [], []⟩ ++ built_objs ⟨400, 200, 300, [50], []⟩) := by
  with_unfolding_all decide

-- =============================================================================
-- Store lemmas
-- =============================================================================

@[simp] theorem storeGet_append_add (s : Store) :
    ∀ (t : Store) (k : Nat), storeGet (s ++ t) (s.length + k) = storeGet t k := by
  induction s with
  | nil => intro t k; simp
  | cons p s ih =>
    intro t k
    have h : (p :: s).length + k = (s.length + k) + 1 := by
      simp [List.length_cons]; omega
    rw [List.cons_append, h, storeGet, ih]

@[simp] theorem storeGet_append_len (s t : Store) :
    storeGet (s ++ t) s.length = storeGet t 0 := by
  have h := storeGet_append_add s t 0
  rwa [Nat.add_zero] at h

theorem storeGet_append_left (s : Store) :
    ∀ (t : Store) (k : Nat), k < s.length → storeGet (s ++ t) k = storeGet s k := by
  induction s with
  | nil => intro t k hk; simp at hk
  | cons p s ih =>
    intro t k hk
    match k with
    | 0 => rw [List.cons_append, storeGet, storeGet]
    | k + 1 =>
      rw [List.cons_append, storeGet, storeGet, ih]
      simpa using hk

@[simp] theorem storeUpdate_append_add (s : Store) :
    ∀ (t : Store) (k : Nat) (f : PartObj → PartObj),
      storeUpdate (s ++ t) (s.length + k) f = s ++ storeUpdate t k f := by
  induction s with
  | nil => intro t k f; simp
  | cons p s ih =>
    intro t k f
    have h : (p :: s).length + k = (s.length + k) + 1 := by
      simp [List.length_cons]; omega
    rw [List.cons_append, h, storeUpdate, ih, List.cons_append]

@[simp] theorem storeUpdate_append_len (s t : Store) (f : PartObj → PartObj) :
    storeUpdate (s ++ t) s.length f = s ++ storeUpdate t 0 f := by
  have h := storeUpdate_append_add s t 0 f
  rwa [Nat.add_zero] at h

theorem storeGet_update_ne (s : Store) :
    ∀ (i j : Nat) (f : PartObj → PartObj), i ≠ j →
      storeGet (storeUpdate s i f) j = storeGet s j := by
  induction s with
  | nil => intro i j f _; rw [storeUpdate]
  | cons p s ih =>
    intro i j f hij
    match i, j with
    | 0, 0 => exact absurd rfl hij
    | 0, j + 1 => rw [storeUpdate, storeGet, storeGet]
    | i + 1, 0 => rw [storeUpdate, storeGet, storeGet]
    | i + 1, j + 1 =>
      rw [storeUpdate, storeGet, storeGet, ih]
      intro h; exact hij (by rw [h])

@[simp] theorem bridgeObjs_length (tag : String) (y z len : Rat) :
    ∀ (i : Nat) (xs : List Rat), (bridgeObjs tag y z len i xs).length = xs.length := by
  intro i xs
  induction xs generalizing i with
  | nil => rfl
  | cons x rest ih => rw [bridgeObjs, List.length_cons, List.length_cons, ih]

-- =============================================================================
-- Label computations of the back-frame loop
-- =============================================================================

theorem startsWith_front_top : string_startsWith "front_top" "front_" = true := by decide

theorem startsWith_front_bottom : string_startsWith "front_bottom" "front_" = true := by decide

theorem startsWith_front_left : string_startsWith "front_left" "front_" = true := by decide

theorem startsWith_front_right : string_startsWith "front_right" "front_" = true := by decide

theorem replace_front_top : string_replace "front_top" "front_" "back_" = "back_top" := by decide

theorem replace_front_bottom :
    string_replace "front_bottom" "front_" "back_" = "back_bottom" := by decide

theorem replace_front_left :
    string_replace "front_left" "front_" "back_" = "back_left" := by decide

theorem replace_front_right :
    string_replace "front_right" "front_" "back_" = "back_right" := by decide

-- =============================================================================
-- The bridge loop in closed form
-- =============================================================================

/-- One iteration of a bridge loop, with the copy inlined. -/
theorem placeBridges_cons (tag : String) (y z : Rat) (tmpl i : Nat) (x : Rat)
    (rest : List Rat) (s : Store) :
    placeBridges tag y z tmpl i (x :: rest) s =
      (s.length ::
         (placeBridges tag y z tmpl (i + 1) rest
           (setLocation (setLabel (s ++ [storeGet s tmpl]) s.length
             (tag ++ toString (i + 1))) s.length ⟨⟨x, y, z⟩, ⟨RIGHT_ANGLE, 0, 0⟩⟩)).1,
       (placeBridges tag y z tmpl (i + 1) rest
           (setLocation (setLabel (s ++ [storeGet s tmpl]) s.length
             (tag ++ toString (i + 1))) s.length ⟨⟨x, y, z⟩, ⟨RIGHT_ANGLE, 0, 0⟩⟩)).2) :=
  rfl

/-- Closed form of a bridge loop run on a store `u ++ l` with the template
at offset `k` into `l`: the returned ids are the next `xs.length` fresh
ids, and the placed parts are exactly `bridgeObjs`. -/
theorem placeBridges_spec (tag : String) (y z : Rat) (xs : List Rat) :
    ∀ (i k : Nat) (u l : Store), k < l.length →
      placeBridges tag y z (u.length + k) i xs (u ++ l) =
        (List.range' (u.length + l.length) xs.length,
         u ++ (l ++ bridgeObjs tag y z (storeGet l k).length i xs)) := by
  induction xs with
  | nil =>
    intro i k u l hk
    simp [placeBridges, bridgeObjs]
  | cons x rest ih =>
    intro i k u l hk
    rw [placeBridges_cons, storeGet_append_add]
    simp only [List.length_append, List.append_assoc, setLabel, setLocation,
      storeUpdate_append_add, storeUpdate_append_len, storeUpdate]
    rw [ih (i + 1) k u]
    · rw [storeGet_append_left l _ k hk]
      simp [bridgeObjs, List.range'_succ, Nat.add_assoc]
    · rw [List.length_append]; omega

-- =============================================================================
-- The full computation in closed form
-- =============================================================================

theorem extrusion_2020_always_ok (len : Rat) (s : Store) :
    extrusion_2020 provider_always_ok len s = Except.ok (alloc s ⟨len, "", locZero⟩) := rfl

theorem make_front_spec (c : FrameConfig) (u : Store) (T0 T1 T2 : PartObj) :
    make_front c u.length (u.length + 1) (u ++ [T0, T1, T2]) =
      (⟨"front_frame", [u.length + 5, u.length + 6, u.length + 3, u.length + 4]⟩,
       u ++ [T0, T1, T2,
         ⟨T0.length, "front_left", ⟨⟨0, 0, 0⟩, ⟨0, 0, 0⟩⟩⟩,
         ⟨T0.length, "front_right", ⟨⟨c.width - EXTRUSION_2020_SIZE, 0, 0⟩, ⟨0, 0, 0⟩⟩⟩,
         ⟨T1.length, "front_top", ⟨⟨0, 0, c.height⟩, ⟨0, RIGHT_ANGLE, 0⟩⟩⟩,
         ⟨T1.length, "front_bottom", ⟨⟨0, 0, 0⟩, ⟨0, RIGHT_ANGLE, 0⟩⟩⟩]) := by
  simp [make_front, copyObj, alloc, setLabel, setLocation, List.append_assoc,
    storeGet, storeUpdate]

theorem make_back_spec (c : FrameConfig) (u : Store) (T0 T1 T2 : PartObj)
    (lv lh w h : Rat) :
    make_back c ⟨"front_frame", [u.length + 5, u.length + 6, u.length + 3, u.length + 4]⟩
      (u ++ [T0, T1, T2,
        ⟨lv, "front_left", ⟨⟨0, 0, 0⟩, ⟨0, 0, 0⟩⟩⟩,
        ⟨lv, "front_right", ⟨⟨w, 0, 0⟩, ⟨0, 0, 0⟩⟩⟩,
        ⟨lh, "front_top", ⟨⟨0, 0, h⟩, ⟨0, RIGHT_ANGLE, 0⟩⟩⟩,
        ⟨lh, "front_bottom", ⟨⟨0, 0, 0⟩, ⟨0, RIGHT_ANGLE, 0⟩⟩⟩]) =
      (⟨"back_frame", [u.length + 7, u.length + 8, u.length + 9, u.length + 10]⟩,
       u ++ [T0, T1, T2,
         ⟨lv, "front_left", ⟨⟨0, 0, 0⟩, ⟨0, 0, 0⟩⟩⟩,
         ⟨lv, "front_right", ⟨⟨w, 0, 0⟩, ⟨0, 0, 0⟩⟩⟩,
         ⟨lh, "front_top", ⟨⟨0, 0, h⟩, ⟨0, RIGHT_ANGLE, 0⟩⟩⟩,
         ⟨lh, "front_bottom", ⟨⟨0, 0, 0⟩, ⟨0, RIGHT_ANGLE, 0⟩⟩⟩,
         ⟨lh, "back_top", ⟨⟨0, c.depth, h⟩, ⟨0, RIGHT_ANGLE, 0⟩⟩⟩,
         ⟨lh, "back_bottom", ⟨⟨0, c.depth, 0⟩, ⟨0, RIGHT_ANGLE, 0⟩⟩⟩,
         ⟨lv, "back_left", ⟨⟨0, c.depth, 0⟩, ⟨0, 0, 0⟩⟩⟩,
         ⟨lv, "back_right", ⟨⟨w, c.depth, 0⟩, ⟨0, 0, 0⟩⟩⟩]) := by
  simp [make_back, copyChildren, copyObj, alloc, adjustBack, setLabel, setLocation,
    List.append_assoc, storeGet, storeUpdate,
    startsWith_front_top, startsWith_front_bottom, startsWith_front_left,
    startsWith_front_right, replace_front_top, replace_front_bottom,
    replace_front_left, replace_front_right]

set_option maxHeartbeats 1000000 in
theorem create_frame_closed (c : FrameConfig) (s0 : Store) :
    create_frame provider_always_ok c s0 =
      Except.ok (built_assembly s0.length c, s0 ++ built_objs c) := by
  rw [create_frame.eq_def]
  simp only [extrusion_2020_always_ok, alloc, List.length_append, List.append_assoc,
    List.cons_append, List.nil_append, List.singleton_append, List.length_cons,
    List.length_nil, Nat.reduceAdd]
  rw [make_front_spec]
  rw [make_back_spec]
  rw [placeBridges_spec "bottom_bridge_" c.depth (-EXTRUSION_2020_SIZE)
    c.bottom_bridge_positions 0 2 s0]
  rotate_left
  · simp
  simp only [List.append_assoc, List.cons_append, List.nil_append, List.length_append,
    List.length_cons, List.length_nil, Nat.reduceAdd, bridgeObjs_length, storeGet]
  rw [placeBridges_spec "top_bridge_" c.depth (c.height - EXTRUSION_2020_SIZE)
    c.top_bridge_positions 0 2 s0]
  rotate_left
  · simp
  simp only [List.append_assoc, List.cons_append, List.nil_append, List.length_append,
    List.length_cons, List.length_nil, Nat.reduceAdd, bridgeObjs_length, storeGet]
  simp [built_assembly, built_objs, fixed_objs, Nat.add_assoc, Nat.add_comm, Nat.add_left_comm]

theorem renderChildren_map_member (s : Store) (ids : List Nat) (rest : List Child) :
    renderChildren s (ids.map Child.member ++ rest) =
      ids.map (storeGet s) ++ renderChildren s rest := by
  induction ids with
  | nil => simp
  | cons i is ih => simp [renderChildren, ih]

theorem renderChildren_map_member_nil (s : Store) (ids : List Nat) :
    renderChildren s (ids.map Child.member) = ids.map (storeGet s) := by
  induction ids with
  | nil => simp [renderChildren]
  | cons i is ih => simp [renderChildren, ih]

theorem map_storeGet_range (objs : Store) :
    ∀ (u rest : Store),
      (List.range' u.length objs.length).map (storeGet (u ++ (objs ++ rest))) = objs := by
  induction objs with
  | nil => simp
  | cons p ps ih =>
    intro u rest
    have h := ih (u ++ [p]) rest
    simp [List.range'_succ] at h ⊢
    exact ⟨rfl, h⟩

set_option maxHeartbeats 1000000 in
theorem render_built (c : FrameConfig) (s0 : Store) :
    (built_assembly s0.length c).render (s0 ++ built_objs c) = member_list c := by
  have hb := map_storeGet_range
    (bridgeObjs "bottom_bridge_" c.depth (-EXTRUSION_2020_SIZE)
      (c.depth - EXTRUSION_2020_SIZE) 0 c.bottom_bridge_positions)
    (s0 ++ fixed_objs c)
    (bridgeObjs "top_bridge_" c.depth (c.height - EXTRUSION_2020_SIZE)
      (c.depth - EXTRUSION_2020_SIZE) 0 c.top_bridge_positions)
  have ht := map_storeGet_range
    (bridgeObjs "top_bridge_" c.depth (c.height - EXTRUSION_2020_SIZE)
      (c.depth - EXTRUSION_2020_SIZE) 0 c.top_bridge_positions)
    ((s0 ++ fixed_objs c)
      ++ bridgeObjs "bottom_bridge_" c.depth (-EXTRUSION_2020_SIZE)
        (c.depth - EXTRUSION_2020_SIZE) 0 c.bottom_bridge_positions)
    []
  simp only [List.append_assoc, List.cons_append, List.nil_append, List.append_nil,
    List.singleton_append, List.length_append, List.length_cons, List.length_nil,
    Nat.reduceAdd, bridgeObjs_length, Nat.add_assoc, fixed_objs] at hb ht
  rw [show List.length s0 + (c.bottom_bridge_positions.length + 11) =
      List.length s0 + (11 + c.bottom_bridge_positions.length) from by omega] at ht
  simp [built_assembly, built_objs, fixed_objs, member_list, Assembly.render, renderChildren,
    renderChildren_map_member, renderChildren_map_member_nil, storeGet, hb,
    Nat.add_assoc]
  exact ht

theorem run_members_eq (c : FrameConfig) (s0 : Store) :
    run_members c s0 = member_list c := by
  simp only [run_members, create_frame_closed]
  exact render_built c s0

theorem frame_assembly_eq (c : FrameConfig) : frame_assembly c = built_assembly 0 c := by
  simp only [frame_assembly, create_frame_closed, List.length_nil]

theorem frame_store_eq (c : FrameConfig) : frame_store c = built_objs c := by
  simp only [frame_store, create_frame_closed, List.nil_append]

theorem assembled_members_eq (c : FrameConfig) : assembled_members c = member_list c := by
  rw [assembled_members, frame_assembly_eq, frame_store_eq]
  have h := render_built c []
  simpa using h

-- =============================================================================
-- Validation lemmas
-- =============================================================================

theorem checkPositions_eq_ok_iff (mkNeg : Nat → Rat → VErr)
    (mkExc : Nat → Rat → Rat → VErr) (u : Rat) :
    ∀ (i : Nat) (xs : List Rat),
      checkPositions mkNeg mkExc u i xs = Except.ok () ↔ ∀ p ∈ xs, 0 ≤ p ∧ p ≤ u := by
  intro i xs
  induction xs generalizing i with
  | nil => simp [checkPositions]
  | cons p rest ih =>
    by_cases h1 : p < 0
    · simp only [checkPositions, if_pos h1]
      constructor
      · intro hcontra; exact absurd hcontra (by simp)
      · intro hall; exact absurd (hall p (by simp)).1 (not_le.mpr h1)
    · by_cases h2 : u < p
      · simp only [checkPositions, if_neg h1, if_pos h2]
        constructor
        · intro hcontra; exact absurd hcontra (by simp)
        · intro hall; exact absurd (hall p (by simp)).2 (not_le.mpr h2)
      · have hp0 : 0 ≤ p := not_lt.mp h1
        have hpu : p ≤ u := not_lt.mp h2
        simp only [checkPositions, if_neg h1, if_neg h2]
        rw [ih (i + 1)]
        constructor
        · intro hall q hq
          rcases List.mem_cons.mp hq with hq | hq
          · exact hq ▸ ⟨hp0, hpu⟩
          · exact hall q hq
        · intro hall q hq; exact hall q (List.mem_cons_of_mem p hq)

theorem checkPositions_error_names (mkNeg : Nat → Rat → VErr)
    (mkExc : Nat → Rat → Rat → VErr) (u : Rat) :
    ∀ (xs : List Rat) (i : Nat), (¬ ∀ p ∈ xs, 0 ≤ p ∧ p ≤ u) →
      ∃ j pos, xs[j]? = some pos ∧
        ((pos < 0 ∧
            checkPositions mkNeg mkExc u i xs = Except.error (mkNeg (i + j + 1) pos)) ∨
         (u < pos ∧
            checkPositions mkNeg mkExc u i xs = Except.error (mkExc (i + j + 1) pos u))) := by
  intro xs
  induction xs with
  | nil => intro i hbad; exact absurd (by simp) hbad
  | cons p rest ih =>
    intro i hbad
    by_cases h1 : p < 0
    · exact ⟨0, p, by simp, Or.inl ⟨h1, by simp [checkPositions, if_pos h1]⟩⟩
    · by_cases h2 : u < p
      · exact ⟨0, p, by simp, Or.inr ⟨h2, by simp [checkPositions, if_neg h1, if_pos h2]⟩⟩
      · have hrest : ¬ ∀ p ∈ rest, 0 ≤ p ∧ p ≤ u := by
          intro hall; exact hbad (by
            intro q hq
            rcases List.mem_cons.mp hq with hq | hq
            · exact hq ▸ ⟨not_lt.mp h1, not_lt.mp h2⟩
            · exact hall q hq)
        obtain ⟨j, pos, hj, hres⟩ := ih (i + 1) hrest
        refine ⟨j + 1, pos, by simpa using hj, ?_⟩
        have harith : i + 1 + j + 1 = i + (j + 1) + 1 := by omega
        rcases hres with ⟨hv, heq⟩ | ⟨hv, heq⟩
        · exact Or.inl ⟨hv, by
            simp only [checkPositions, if_neg h1, if_neg h2]
            rw [heq, harith]⟩
        · exact Or.inr ⟨hv, by
            simp only [checkPositions, if_neg h1, if_neg h2]
            rw [heq, harith]⟩

/-- A validation error that correctly names an offending bridge: the
1-based index points into the right list at the reported value, the value
violates the reported check, and an upper-bound error reports the computed
usable width as the bound. -/
def VErr.namesBridge (c : FrameConfig) : VErr → Prop
  | VErr.bottomNeg i pos => c.bottom_bridge_positions[i - 1]? = some pos ∧ pos < 0
  | VErr.bottomExceeds i pos b =>
      c.bottom_bridge_positions[i - 1]? = some pos ∧
      b = c.width - 2 * EXTRUSION_2020_SIZE ∧ b < pos
  | VErr.topNeg i pos => c.top_bridge_positions[i - 1]? = some pos ∧ pos < 0
  | VErr.topExceeds i pos b =>
      c.top_bridge_positions[i - 1]? = some pos ∧
      b = c.width - 2 * EXTRUSION_2020_SIZE ∧ b < pos
  | _ => False

/-- Whether a validation error is one of the two bridge upper-bound
(`exceeds usable width`) errors. -/
def VErr.isUpperBoundErr : VErr → Bool
  | VErr.bottomExceeds _ _ _ => true
  | VErr.topExceeds _ _ _ => true
  | _ => false

-- =============================================================================
-- Claim-support definitions
-- =============================================================================

/-- The members of the `k`-th child of the root assembly when that child is
a sub-assembly (front frame at `k = 0`, back frame at `k = 1`). -/
def subassembly_members (c : FrameConfig) (k : Nat) : List PartObj :=
  match (frame_assembly c).children[k]? with
  | some (Child.sub comp) => comp.children.map (storeGet (frame_store c))
  | _ => []

/-- The label a child of the root assembly presents: a sub-assembly's
compound label, or a leaf member's part label. -/
def child_label (c : FrameConfig) : Child → String
  | Child.sub comp => comp.label
  | Child.member i => (storeGet (frame_store c) i).label

/-- Ids of the three shared template extrusions. -/
def template_ids : List Nat := [0, 1, 2]

/-- All member ids referenced by a child list, in traversal order. -/
def memberIds : List Child → List Nat
  | [] => []
  | Child.sub comp :: rest => comp.children ++ memberIds rest
  | Child.member i :: rest => i :: memberIds rest

/-- Ids of every placed member of the assembly built from the empty heap. -/
def placed_ids (c : FrameConfig) : List Nat := memberIds (frame_assembly c).children

/-- Scenario B / source-default configuration. -/
def scenarioB : FrameConfig := ⟨400, 200, 300, [50, 200], []⟩

/-- Scenario C configuration (380 exceeds the usable width 360). -/
def scenarioC : FrameConfig := ⟨400, 200, 300, [380], []⟩

theorem memberIds_map_member (r : List Nat) :
    ∀ (rest : List Child), memberIds (r.map Child.member ++ rest) = r ++ memberIds rest := by
  induction r with
  | nil => intro rest; rfl
  | cons i is ih => intro rest; simp [memberIds, ih]

theorem memberIds_map_member_nil (r : List Nat) :
    memberIds (r.map Child.member) = r := by
  have h := memberIds_map_member r []
  simpa [memberIds] using h

theorem bridgeObjs_map_label (tag : String) (y z len : Rat) :
    ∀ (xs : List Rat) (i : Nat),
      (bridgeObjs tag y z len i xs).map PartObj.label =
        (List.range' (i + 1) xs.length).map (fun j => tag ++ toString j) := by
  intro xs
  induction xs with
  | nil => intro i; rfl
  | cons x rest ih => intro i; simp [bridgeObjs, List.range'_succ, ih (i + 1)]

theorem bridgeObjs_map_length_sum (tag : String) (y z len : Rat) :
    ∀ (xs : List Rat) (i : Nat),
      ((bridgeObjs tag y z len i xs).map PartObj.length).sum = (xs.length : Rat) * len := by
  intro xs
  induction xs with
  | nil => intro i; simp [bridgeObjs]
  | cons x rest ih =>
    intro i
    rw [bridgeObjs]
    simp only [List.map_cons, List.sum_cons, ih (i + 1), List.length_cons]
    push_cast
    ring

-- =============================================================================
-- Claims
-- =============================================================================

/-- C1: for every valid `FrameConfig`, the material calculator's
`total_length_mm` equals the sum of the lengths of every member placed by
`create_frame` for the same config. -/
theorem total_length_matches_assembly (c : FrameConfig)
    (h : c.post_init = Except.ok ()) :
    c.calculate_extrusion_lengths.total_length_mm =
      ((assembled_members c).map PartObj.length).sum := by
  rw [assembled_members_eq]
  simp [member_list, FrameConfig.calculate_extrusion_lengths, bridgeObjs_map_length_sum]
  ring

theorem total_length_matches_assembly_witness :
    scenarioB.post_init = Except.ok () ∧
    scenarioB.calculate_extrusion_lengths.total_length_mm =
      ((assembled_members scenarioB).map PartObj.length).sum :=
  ⟨by with_unfolding_all decide,
   total_length_matches_assembly scenarioB (by with_unfolding_all decide)⟩

/-- C2: for every valid `FrameConfig`, `create_frame` places each member at
exactly the specified pose: the full list of placed members (in traversal
order) is `member_list`, which spells out every label, length, position
and orientation, including the `i`-th bottom/top bridge at
`(x_pos, depth, ∓EXTRUSION_2020_SIZE ...)` rotated 90° about X. -/
theorem create_frame_member_poses (c : FrameConfig)
    (h : c.post_init = Except.ok ()) :
    assembled_members c = member_list c :=
  assembled_members_eq c

theorem create_frame_member_poses_witness :
    scenarioB.post_init = Except.ok () ∧
    assembled_members scenarioB = member_list scenarioB :=
  ⟨by with_unfolding_all decide,
   create_frame_member_poses scenarioB (by with_unfolding_all decide)⟩

/-- C3: every back-frame member equals the corresponding front-frame member
with the label prefix `front_` replaced by `back_`, the Y coordinate
increased by exactly `depth`, and X, Z and orientation unchanged. -/
theorem back_frame_duplicates_front (c : FrameConfig)
    (h : c.post_init = Except.ok ()) :
    subassembly_members c 1 = (subassembly_members c 0).map
      (fun p => ⟨p.length, string_replace p.label "front_" "back_",
        ⟨⟨p.location.position.x, p.location.position.y + c.depth,
          p.location.position.z⟩,
         p.location.orientation⟩⟩) := by
  simp [subassembly_members, frame_assembly_eq, frame_store_eq, built_assembly,
    built_objs, fixed_objs, storeGet, replace_front_top, replace_front_bottom,
    replace_front_left, replace_front_right]

theorem back_frame_duplicates_front_witness :
    scenarioB.post_init = Except.ok () ∧
    subassembly_members scenarioB 1 = (subassembly_members scenarioB 0).map
      (fun p => ⟨p.length, string_replace p.label "front_" "back_",
        ⟨⟨p.location.position.x, p.location.position.y + scenarioB.depth,
          p.location.position.z⟩,
         p.location.orientation⟩⟩) :=
  ⟨by with_unfolding_all decide,
   back_frame_duplicates_front scenarioB (by with_unfolding_all decide)⟩

/-- C5: `calculate_extrusion_lengths` is exact: vertical length
`height - 20` with count 4, horizontal length `width` with count 4, bridge
length `depth - 20` counted once per bridge position, the total is the
exact sum formula, and the metre figure is the millimetre total divided by
1000. -/
theorem calculate_extrusion_lengths_exact (c : FrameConfig)
    (h : c.post_init = Except.ok ()) :
    c.calculate_extrusion_lengths.vertical.length = c.height - EXTRUSION_2020_SIZE ∧
    c.calculate_extrusion_lengths.vertical.count = 4 ∧
    c.calculate_extrusion_lengths.horizontal.length = c.width ∧
    c.calculate_extrusion_lengths.horizontal.count = 4 ∧
    c.calculate_extrusion_lengths.bridge.length = c.depth - EXTRUSION_2020_SIZE ∧
    c.calculate_extrusion_lengths.bridge.count =
      c.bottom_bridge_positions.length + c.top_bridge_positions.length ∧
    c.calculate_extrusion_lengths.total_length_mm =
      4 * (c.height - EXTRUSION_2020_SIZE) + 4 * c.width +
        ((c.bottom_bridge_positions.length + c.top_bridge_positions.length : Nat) : Rat) *
          (c.depth - EXTRUSION_2020_SIZE) ∧
    c.calculate_extrusion_lengths.total_length_m =
      c.calculate_extrusion_lengths.total_length_mm / 1000 ∧
    c.calculate_extrusion_lengths.vertical.count +
        c.calculate_extrusion_lengths.horizontal.count +
        c.calculate_extrusion_lengths.bridge.count =
      8 + (c.bottom_bridge_positions.length + c.top_bridge_positions.length) := by
  refine ⟨rfl, rfl, rfl, rfl, rfl, rfl, ?_, rfl, ?_⟩
  · simp [FrameConfig.calculate_extrusion_lengths]
  · simp [FrameConfig.calculate_extrusion_lengths]

theorem calculate_extrusion_lengths_exact_witness :
    scenarioB.post_init = Except.ok () ∧
    scenarioB.calculate_extrusion_lengths.total_length_mm = 2880 ∧
    scenarioB.calculate_extrusion_lengths.vertical.count +
        scenarioB.calculate_extrusion_lengths.horizontal.count +
        scenarioB.calculate_extrusion_lengths.bridge.count = 10 := by
  obtain ⟨-, -, -, -, -, -, h7, -, h9⟩ :=
    calculate_extrusion_lengths_exact scenarioB (by with_unfolding_all decide)
  refine ⟨by with_unfolding_all decide, ?_, ?_⟩
  · rw [h7]; norm_num [scenarioB, EXTRUSION_2020_SIZE]
  · rw [h9]; norm_num [scenarioB]

/-- C7: `create_frame` is deterministic and free of hidden shared state:
run from any two heaps (in particular, a second call on the heap the first
call left behind), it produces assemblies whose placed members have
identical labels, lengths, positions and orientations. -/
theorem create_frame_deterministic (c : FrameConfig)
    (h : c.post_init = Except.ok ()) (s0 s1 : Store) :
    run_members c s0 = run_members c s1 := by
  rw [run_members_eq, run_members_eq]

theorem create_frame_deterministic_witness :
    scenarioB.post_init = Except.ok () ∧
    run_members scenarioB [] = run_members scenarioB (frame_store scenarioB) :=
  ⟨by with_unfolding_all decide,
   create_frame_deterministic scenarioB (by with_unfolding_all decide) []
     (frame_store scenarioB)⟩

theorem fixed_objs_length (c : FrameConfig) : (fixed_objs c).length = 11 := rfl

theorem child_label_member (c : FrameConfig) :
    child_label c ∘ Child.member = PartObj.label ∘ storeGet (frame_store c) :=
  funext (fun i => rfl)

/-- C6 statement part: label map. -/
theorem assembly_children_labels (c : FrameConfig) :
    (frame_assembly c).children.map (child_label c) =
      ["front_frame", "back_frame"]
        ++ (List.range' 1 c.bottom_bridge_positions.length).map
            (fun j => "bottom_bridge_" ++ toString j)
        ++ (List.range' 1 c.top_bridge_positions.length).map
            (fun j => "top_bridge_" ++ toString j) := by
  have hbot := congrArg (List.map PartObj.label)
    (map_storeGet_range
      (bridgeObjs "bottom_bridge_" c.depth (-EXTRUSION_2020_SIZE)
        (c.depth - EXTRUSION_2020_SIZE) 0 c.bottom_bridge_positions)
      (fixed_objs c)
      (bridgeObjs "top_bridge_" c.depth (c.height - EXTRUSION_2020_SIZE)
        (c.depth - EXTRUSION_2020_SIZE) 0 c.top_bridge_positions))
  have htop := congrArg (List.map PartObj.label)
    (map_storeGet_range
      (bridgeObjs "top_bridge_" c.depth (c.height - EXTRUSION_2020_SIZE)
        (c.depth - EXTRUSION_2020_SIZE) 0 c.top_bridge_positions)
      (fixed_objs c
        ++ bridgeObjs "bottom_bridge_" c.depth (-EXTRUSION_2020_SIZE)
          (c.depth - EXTRUSION_2020_SIZE) 0 c.bottom_bridge_positions)
      [])
  simp only [List.map_map, List.length_append, List.append_nil, List.append_assoc,
    fixed_objs_length, bridgeObjs_length, bridgeObjs_map_label, Nat.zero_add] at hbot htop
  simp [frame_assembly_eq, frame_store_eq, built_assembly, built_objs, child_label,
    child_label_member, List.map_map, hbot, htop]

/-- C6: the root assembly is labelled `pc_frame`; its children are, in
order, the front frame, the back frame, all bottom bridges in
bridge-position list order, then all top bridges in list order (witnessed
by the ordered child-label list); the first two children are
sub-assemblies, every later child is a leaf member; and the child count is
`2 + #bottom + #top`, so with both bridge lists empty the root has exactly
2 children and no bridge members. -/
theorem assembly_tree_structure (c : FrameConfig) (h : c.post_init = Except.ok ()) :
    (frame_assembly c).label = "pc_frame" ∧
    (frame_assembly c).children.map (child_label c) =
      ["front_frame", "back_frame"]
        ++ (List.range' 1 c.bottom_bridge_positions.length).map
            (fun j => "bottom_bridge_" ++ toString j)
        ++ (List.range' 1 c.top_bridge_positions.length).map
            (fun j => "top_bridge_" ++ toString j) ∧
    (frame_assembly c).children.length =
      2 + c.bottom_bridge_positions.length + c.top_bridge_positions.length ∧
    (∀ ch ∈ (frame_assembly c).children.drop 2, ∃ i, ch = Child.member i) ∧
    (∀ ch ∈ (frame_assembly c).children.take 2, ∃ comp, ch = Child.sub comp) := by
  refine ⟨by simp [frame_assembly_eq, built_assembly],
    assembly_children_labels c, ?_, ?_, ?_⟩
  · simp [frame_assembly_eq, built_assembly]
    omega
  · intro ch hch
    simp [frame_assembly_eq, built_assembly] at hch
    rcases hch with ⟨i, -, rfl⟩ | ⟨i, -, rfl⟩ <;> exact ⟨i, rfl⟩
  · intro ch hch
    simp [frame_assembly_eq, built_assembly] at hch
    rcases hch with rfl | rfl
    · exact ⟨_, rfl⟩
    · exact ⟨_, rfl⟩

theorem assembly_tree_structure_witness :
    scenarioB.post_init = Except.ok () ∧
    ((frame_assembly scenarioB).label = "pc_frame" ∧
     (frame_assembly scenarioB).children.map (child_label scenarioB) =
       ["front_frame", "back_frame"]
         ++ (List.range' 1 scenarioB.bottom_bridge_positions.length).map
             (fun j => "bottom_bridge_" ++ toString j)
         ++ (List.range' 1 scenarioB.top_bridge_positions.length).map
             (fun j => "top_bridge_" ++ toString j) ∧
     (frame_assembly scenarioB).children.length =
       2 + scenarioB.bottom_bridge_positions.length +
         scenarioB.top_bridge_positions.length ∧
     (∀ ch ∈ (frame_assembly scenarioB).children.drop 2, ∃ i, ch = Child.member i) ∧
     (∀ ch ∈ (frame_assembly scenarioB).children.take 2, ∃ comp, ch = Child.sub comp)) :=
  ⟨by with_unfolding_all decide,
   assembly_tree_structure scenarioB (by with_unfolding_all decide)⟩

/-- C9: every placement is an independent object: the template ids and all
placed-member ids are pairwise distinct, and setting the label or the
location of any placed member leaves every other placed member and every
template object unchanged in the final heap. -/
theorem placement_no_aliasing (c : FrameConfig) (h : c.post_init = Except.ok ()) :
    (template_ids ++ placed_ids c).Nodup ∧
    ∀ i ∈ placed_ids c, ∀ j ∈ template_ids ++ placed_ids c, j ≠ i →
      (∀ lb, storeGet (setLabel (frame_store c) i lb) j = storeGet (frame_store c) j) ∧
      (∀ loc, storeGet (setLocation (frame_store c) i loc) j =
        storeGet (frame_store c) j) := by
  have hplaced : placed_ids c =
      [5, 6, 3, 4, 7, 8, 9, 10]
        ++ (List.range' 11 c.bottom_bridge_positions.length
            ++ List.range' (11 + c.bottom_bridge_positions.length)
                c.top_bridge_positions.length) := by
    simp only [placed_ids, frame_assembly_eq]
    simp [built_assembly, memberIds, memberIds_map_member, memberIds_map_member_nil]
  constructor
  · refine List.nodup_append.mpr ⟨by decide, ?_, ?_⟩
    · rw [hplaced]
      refine List.nodup_append.mpr ⟨by decide, ?_, ?_⟩
      · refine List.nodup_append.mpr
          ⟨List.nodup_range' _ _ 1 Nat.one_pos, List.nodup_range' _ _ 1 Nat.one_pos, ?_⟩
        intro a ha hb
        rw [List.mem_range'_1] at ha hb
        omega
      · intro a ha hb
        simp at ha
        simp [List.mem_range'_1] at hb
        omega
    · rw [hplaced]
      intro a ha hb
      simp [template_ids] at ha
      simp [List.mem_range'_1] at hb
      omega
  · intro i _ j _ hji
    exact ⟨fun lb => storeGet_update_ne (frame_store c) i j _ (Ne.symm hji),
           fun loc => storeGet_update_ne (frame_store c) i j _ (Ne.symm hji)⟩

theorem placement_no_aliasing_witness :
    scenarioB.post_init = Except.ok () ∧
    ((template_ids ++ placed_ids scenarioB).Nodup ∧
     ∀ i ∈ placed_ids scenarioB, ∀ j ∈ template_ids ++ placed_ids scenarioB, j ≠ i →
       (∀ lb, storeGet (setLabel (frame_store scenarioB) i lb) j =
          storeGet (frame_store scenarioB) j) ∧
       (∀ loc, storeGet (setLocation (frame_store scenarioB) i loc) j =
          storeGet (frame_store scenarioB) j)) :=
  ⟨by with_unfolding_all decide,
   placement_no_aliasing scenarioB (by with_unfolding_all decide)⟩

/-- C8: when the geometry collaborator cannot produce a valid solid for
any of the three requested template lengths, `create_frame` fails with the
shape-construction error — an error kind distinct from every validation
error — and returns no assembly tree. -/
theorem shape_error_propagates (ok : Rat → Bool) (c : FrameConfig) (s0 : Store)
    (h : ok (c.height - EXTRUSION_2020_SIZE) = false ∨ ok c.width = false ∨
      ok (c.depth - EXTRUSION_2020_SIZE) = false) :
    create_frame ok c s0 =
      Except.error (FrameError.shapeConstruction "Part creation failed") ∧
    ∀ e : VErr,
      FrameError.shapeConstruction "Part creation failed" ≠ FrameError.validation e := by
  constructor
  · rw [create_frame.eq_def]
    cases hv : ok (c.height - EXTRUSION_2020_SIZE) with
    | false => simp [extrusion_2020, hv]
    | true =>
      cases hhw : ok c.width with
      | false => simp [extrusion_2020, alloc, hv, hhw]
      | true =>
        cases hbr : ok (c.depth - EXTRUSION_2020_SIZE) with
        | false => simp [extrusion_2020, alloc, hv, hhw, hbr]
        | true => rcases h with h | h | h <;> simp_all
  · exact fun e hcontra => FrameError.noConfusion hcontra

theorem shape_error_propagates_witness :
    ((fun _ : Rat => false) (scenarioB.height - EXTRUSION_2020_SIZE) = false ∨
     (fun _ : Rat => false) scenarioB.width = false ∨
     (fun _ : Rat => false) (scenarioB.depth - EXTRUSION_2020_SIZE) = false) ∧
    (create_frame (fun _ => false) scenarioB [] =
       Except.error (FrameError.shapeConstruction "Part creation failed") ∧
     ∀ e : VErr,
       FrameError.shapeConstruction "Part creation failed" ≠ FrameError.validation e) :=
  ⟨Or.inl rfl, shape_error_propagates (fun _ => false) scenarioB [] (Or.inl rfl)⟩

/-- C4: with all three dimensions at least twice the extrusion size,
`FrameConfig` validation succeeds exactly when every bridge position in
both lists lies in `[0, width - 2*EXTRUSION_2020_SIZE]`; and when some
position is out of range, validation fails with an error naming an
offending 1-based bridge index, the value found there, and the computed
usable-width bound. -/
theorem frameconfig_validation (c : FrameConfig)
    (hw : 2 * EXTRUSION_2020_SIZE ≤ c.width)
    (hh : 2 * EXTRUSION_2020_SIZE ≤ c.height)
    (hd : 2 * EXTRUSION_2020_SIZE ≤ c.depth) :
    (c.post_init = Except.ok () ↔
      ∀ p ∈ c.bottom_bridge_positions ++ c.top_bridge_positions,
        0 ≤ p ∧ p ≤ c.width - 2 * EXTRUSION_2020_SIZE) ∧
    ((¬ ∀ p ∈ c.bottom_bridge_positions ++ c.top_bridge_positions,
        0 ≤ p ∧ p ≤ c.width - 2 * EXTRUSION_2020_SIZE) →
      ∃ e, c.post_init = Except.error e ∧ VErr.namesBridge c e) := by
  cases hbot : checkPositions VErr.bottomNeg VErr.bottomExceeds
      (c.width - 2 * EXTRUSION_2020_SIZE) 0 c.bottom_bridge_positions with
  | error e =>
    have hpost : c.post_init = Except.error e := by
      simp only [FrameConfig.post_init]
      rw [hbot]
    have hviol : ¬ ∀ p ∈ c.bottom_bridge_positions,
        0 ≤ p ∧ p ≤ c.width - 2 * EXTRUSION_2020_SIZE := by
      intro hall
      have hok := (checkPositions_eq_ok_iff VErr.bottomNeg VErr.bottomExceeds
        (c.width - 2 * EXTRUSION_2020_SIZE) 0 c.bottom_bridge_positions).mpr hall
      rw [hok] at hbot
      exact absurd hbot (by simp)
    obtain ⟨j, pos, hj, hcase⟩ := checkPositions_error_names VErr.bottomNeg
      VErr.bottomExceeds (c.width - 2 * EXTRUSION_2020_SIZE)
      c.bottom_bridge_positions 0 hviol
    constructor
    · constructor
      · intro hok; rw [hpost] at hok; exact absurd hok (by simp)
      · intro hall
        exact absurd (fun p hp => hall p (List.mem_append_left _ hp)) hviol
    · intro _
      rcases hcase with ⟨hneg, heq⟩ | ⟨hexc, heq⟩
      · rw [heq] at hbot
        have he : e = VErr.bottomNeg (0 + j + 1) pos := by
          have := hbot.symm
          exact (Except.error.injEq _ _).mp this
        refine ⟨e, hpost, ?_⟩
        rw [he]
        show c.bottom_bridge_positions[0 + j + 1 - 1]? = some pos ∧ pos < 0
        constructor
        · rw [show 0 + j + 1 - 1 = j from by omega]; exact hj
        · exact hneg
      · rw [heq] at hbot
        have he : e = VErr.bottomExceeds (0 + j + 1) pos
            (c.width - 2 * EXTRUSION_2020_SIZE) := by
          have := hbot.symm
          exact (Except.error.injEq _ _).mp this
        refine ⟨e, hpost, ?_⟩
        rw [he]
        show c.bottom_bridge_positions[0 + j + 1 - 1]? = some pos ∧
          c.width - 2 * EXTRUSION_2020_SIZE = c.width - 2 * EXTRUSION_2020_SIZE ∧
          c.width - 2 * EXTRUSION_2020_SIZE < pos
        refine ⟨?_, rfl, hexc⟩
        rw [show 0 + j + 1 - 1 = j from by omega]; exact hj
  | ok v =>
    obtain ⟨⟩ := v
    have hballok : ∀ p ∈ c.bottom_bridge_positions,
        0 ≤ p ∧ p ≤ c.width - 2 * EXTRUSION_2020_SIZE :=
      (checkPositions_eq_ok_iff VErr.bottomNeg VErr.bottomExceeds
        (c.width - 2 * EXTRUSION_2020_SIZE) 0 c.bottom_bridge_positions).mp hbot
    cases htop : checkPositions VErr.topNeg VErr.topExceeds
        (c.width - 2 * EXTRUSION_2020_SIZE) 0 c.top_bridge_positions with
    | error e =>
      have hpost : c.post_init = Except.error e := by
        simp only [FrameConfig.post_init]
        rw [hbot, htop]
      have hviol : ¬ ∀ p ∈ c.top_bridge_positions,
          0 ≤ p ∧ p ≤ c.width - 2 * EXTRUSION_2020_SIZE := by
        intro hall
        have hok := (checkPositions_eq_ok_iff VErr.topNeg VErr.topExceeds
          (c.width - 2 * EXTRUSION_2020_SIZE) 0 c.top_bridge_positions).mpr hall
        rw [hok] at htop
        exact absurd htop (by simp)
      obtain ⟨j, pos, hj, hcase⟩ := checkPositions_error_names VErr.topNeg
        VErr.topExceeds (c.width - 2 * EXTRUSION_2020_SIZE)
        c.top_bridge_positions 0 hviol
      constructor
      · constructor
        · intro hok; rw [hpost] at hok; exact absurd hok (by simp)
        · intro hall
          exact absurd (fun p hp => hall p (List.mem_append_right _ hp)) hviol
      · intro _
        rcases hcase with ⟨hneg, heq⟩ | ⟨hexc, heq⟩
        · rw [heq] at htop
          have he : e = VErr.topNeg (0 + j + 1) pos := by
            have := htop.symm
            exact (Except.error.injEq _ _).mp this
          refine ⟨e, hpost, ?_⟩
          rw [he]
          show c.top_bridge_positions[0 + j + 1 - 1]? = some pos ∧ pos < 0
          constructor
          · rw [show 0 + j + 1 - 1 = j from by omega]; exact hj
          · exact hneg
        · rw [heq] at htop
          have he : e = VErr.topExceeds (0 + j + 1) pos
              (c.width - 2 * EXTRUSION_2020_SIZE) := by
            have := htop.symm
            exact (Except.error.injEq _ _).mp this
          refine ⟨e, hpost, ?_⟩
          rw [he]
          show c.top_bridge_positions[0 + j + 1 - 1]? = some pos ∧
            c.width - 2 * EXTRUSION_2020_SIZE = c.width - 2 * EXTRUSION_2020_SIZE ∧
            c.width - 2 * EXTRUSION_2020_SIZE < pos
          refine ⟨?_, rfl, hexc⟩
          rw [show 0 + j + 1 - 1 = j from by omega]; exact hj
    | ok v =>
      obtain ⟨⟩ := v
      have htallok : ∀ p ∈ c.top_bridge_positions,
          0 ≤ p ∧ p ≤ c.width - 2 * EXTRUSION_2020_SIZE :=
        (checkPositions_eq_ok_iff VErr.topNeg VErr.topExceeds
          (c.width - 2 * EXTRUSION_2020_SIZE) 0 c.top_bridge_positions).mp htop
      have hpost : c.post_init = Except.ok () := by
        simp only [FrameConfig.post_init]
        rw [hbot, htop]
        simp [not_lt.mpr hw, not_lt.mpr hh, not_lt.mpr hd]
      constructor
      · constructor
        · intro _ p hp
          rcases List.mem_append.mp hp with hp | hp
          · exact hballok p hp
          · exact htallok p hp
        · intro _; exact hpost
      · intro hbad
        exact absurd (fun p hp => by
          rcases List.mem_append.mp hp with hp | hp
          · exact hballok p hp
          · exact htallok p hp) hbad

theorem frameconfig_validation_witness :
    2 * EXTRUSION_2020_SIZE ≤ scenarioC.width ∧
    2 * EXTRUSION_2020_SIZE ≤ scenarioC.height ∧
    2 * EXTRUSION_2020_SIZE ≤ scenarioC.depth ∧
    ((scenarioC.post_init = Except.ok () ↔
       ∀ p ∈ scenarioC.bottom_bridge_positions ++ scenarioC.top_bridge_positions,
         0 ≤ p ∧ p ≤ scenarioC.width - 2 * EXTRUSION_2020_SIZE) ∧
     ((¬ ∀ p ∈ scenarioC.bottom_bridge_positions ++ scenarioC.top_bridge_positions,
         0 ≤ p ∧ p ≤ scenarioC.width - 2 * EXTRUSION_2020_SIZE) →
       ∃ e, scenarioC.post_init = Except.error e ∧ VErr.namesBridge scenarioC e)) ∧
    scenarioC.post_init = Except.error (VErr.bottomExceeds 1 380 360) :=
  ⟨by with_unfolding_all decide, by with_unfolding_all decide,
   by with_unfolding_all decide,
   frameconfig_validation scenarioC (by with_unfolding_all decide)
     (by with_unfolding_all decide) (by with_unfolding_all decide),
   by with_unfolding_all decide⟩

/-- C10 counterexample: `width = 30 < 40` with the non-empty bottom bridge
list `[-5]` fails with the *negativity* error for bridge 1, not with a
bridge upper-bound error, refuting the claim as stated. -/
theorem validation_order_counterexample :
    (FrameConfig.mk 30 200 300 [-5] []).width < 2 * EXTRUSION_2020_SIZE ∧
    (FrameConfig.mk 30 200 300 [-5] []).bottom_bridge_positions ≠ [] ∧
    (FrameConfig.mk 30 200 300 [-5] []).post_init =
      Except.error (VErr.bottomNeg 1 (-5)) ∧
    (VErr.bottomNeg 1 (-5)).isUpperBoundErr = false := by
  with_unfolding_all decide

/-- C10 (amended): bridge positions are validated (bottom list, then top
list) before the minimum-dimension checks; consequently, for any config
with `width < 2*EXTRUSION_2020_SIZE`, a non-empty combined bridge list,
and a non-negative first bridge position, construction fails with the
bridge upper-bound error for bridge index 1 — reporting the (negative)
computed usable width — rather than with the width-minimum error. -/
theorem bridge_check_precedes_dimension_check (c : FrameConfig)
    (hw : c.width < 2 * EXTRUSION_2020_SIZE)
    (hne : c.bottom_bridge_positions ++ c.top_bridge_positions ≠ [])
    (hfirst : 0 ≤ (c.bottom_bridge_positions ++ c.top_bridge_positions).headD 0) :
    ∃ e, c.post_init = Except.error e ∧ e.isUpperBoundErr = true ∧
      (∃ pos, e = VErr.bottomExceeds 1 pos (c.width - 2 * EXTRUSION_2020_SIZE) ∨
              e = VErr.topExceeds 1 pos (c.width - 2 * EXTRUSION_2020_SIZE)) ∧
      c.width - 2 * EXTRUSION_2020_SIZE < 0 := by
  have hu : c.width - 2 * EXTRUSION_2020_SIZE < 0 := by linarith
  cases cb : c.bottom_bridge_positions with
  | cons b bs =>
    have hb0 : 0 ≤ b := by rw [cb] at hfirst; simpa using hfirst
    have hblt : c.width - 2 * EXTRUSION_2020_SIZE < b := lt_of_lt_of_le hu hb0
    refine ⟨VErr.bottomExceeds 1 b (c.width - 2 * EXTRUSION_2020_SIZE),
      ?_, rfl, ⟨b, Or.inl rfl⟩, hu⟩
    simp only [FrameConfig.post_init, cb, checkPositions]
    rw [if_neg (not_lt.mpr hb0), if_pos hblt]
  | nil =>
    cases ct : c.top_bridge_positions with
    | nil => rw [cb, ct] at hne; exact absurd rfl hne
    | cons t ts =>
      have ht0 : 0 ≤ t := by rw [cb, ct] at hfirst; simpa using hfirst
      have htlt : c.width - 2 * EXTRUSION_2020_SIZE < t := lt_of_lt_of_le hu ht0
      refine ⟨VErr.topExceeds 1 t (c.width - 2 * EXTRUSION_2020_SIZE),
        ?_, rfl, ⟨t, Or.inr rfl⟩, hu⟩
      simp only [FrameConfig.post_init, cb, ct, checkPositions]
      rw [if_neg (not_lt.mpr ht0), if_pos htlt]

theorem bridge_check_precedes_dimension_check_witness :
    (FrameConfig.mk 30 200 300 [0] []).width < 2 * EXTRUSION_2020_SIZE ∧
    (FrameConfig.mk 30 200 300 [0] []).bottom_bridge_positions ++
      (FrameConfig.mk 30 200 300 [0] []).top_bridge_positions ≠ [] ∧
    0 ≤ ((FrameConfig.mk 30 200 300 [0] []).bottom_bridge_positions ++
          (FrameConfig.mk 30 200 300 [0] []).top_bridge_positions).headD 0 ∧
    (∃ e, (FrameConfig.mk 30 200 300 [0] []).post_init = Except.error e ∧
      e.isUpperBoundErr = true ∧
      (∃ pos, e = VErr.bottomExceeds 1 pos
          ((FrameConfig.mk 30 200 300 [0] []).width - 2 * EXTRUSION_2020_SIZE) ∨
        e = VErr.topExceeds 1 pos
          ((FrameConfig.mk 30 200 300 [0] []).width - 2 * EXTRUSION_2020_SIZE)) ∧
      (FrameConfig.mk 30 200 300 [0] []).width - 2 * EXTRUSION_2020_SIZE < 0) :=
  ⟨by with_unfolding_all decide, by with_unfolding_all decide,
   by with_unfolding_all decide,
   bridge_check_precedes_dimension_check (FrameConfig.mk 30 200 300 [0] [])
     (by with_unfolding_all decide) (by with_unfolding_all decide)
     (by with_unfolding_all decide)⟩
